import Mathlib

/-!
Verification of the crawl-orchestration core of `src/main.rs` (a documentation
scraper built on a remote extraction API).

The pure logic of the source — filename sanitisation, frontmatter construction,
link filtering/deduplication, filename choice — is embedded directly.  Effectful
collaborators that live outside the repository (the `url` crate's parser, the
HTTP transport, the filesystem, the clock) are passed in as explicit oracles,
and each function additionally returns the list of observable events (directory
creation, extraction requests, file writes, console lines) it performs, in
order, so that claims about "network activity", "a file is written" and
"a diagnostic is logged" can be stated as facts about the event trace.
-/

/-- Modelled from the spec: the parsed-URL value of the external `url` crate
(an external dependency, not part of this repository), restricted to the
components §4.1 of the spec names: scheme, domain, path, fragment.
`domain = none` models `Url::domain()` returning `None` (e.g. an IP-address
host or an opaque URL). -/
structure Url where
  scheme : String
  domain : Option String
  path : String
  fragment : Option String
deriving DecidableEq, Repr

/-- Modelled from the spec: the canonical string form of a parsed URL, as
produced by the `url` crate's `to_string` — all components preserved, the
fragment rendered after `#` when present. -/
def Url.render (u : Url) : String :=
  u.scheme ++ "://" ++ u.domain.getD "" ++ u.path ++
    (match u.fragment with
     | some f => "#" ++ f
     | none => "")

/-- Page metadata of a scrape response (`struct Metadata` in the source). -/
structure Metadata where
  title : Option String
  description : Option String
  language : Option String
  source_url : Option String
  status_code : Option Int
  error : Option String
deriving DecidableEq, Repr

/-- Scraped content of a response (`struct ScrapeData` in the source). -/
structure ScrapeData where
  markdown : Option String
  html : Option String
  raw_html : Option String
  screenshot : Option String
  links : Option (List String)
  metadata : Metadata
  warning : Option String
deriving DecidableEq, Repr

/-- A response from the extraction API (`struct ScrapeResponse` in the source).
The `success` flag is carried but — as in the source — never consulted. -/
structure ScrapeResponse where
  success : Bool
  data : ScrapeData
deriving DecidableEq, Repr

/-- Observable effects of a run, recorded in order of occurrence.
`apiRequest url format` is a network request to the extraction endpoint
(`make_api_request`); `fileWrite` is an attempted `fs::write`; `log` and
`elog` are `println!` and `eprintln!` lines. -/
inductive Event where
  | mkdir : String → Event
  | apiRequest : String → String → Event
  | fileWrite : String → Event
  | log : String → Event
  | elog : String → Event
deriving DecidableEq, Repr

/-- The characters `sanitize_filename` replaces (the `invalid_chars` array of
the source, in source order); `Char.ofNat 34` is the double-quote character. -/
def invalid_chars : List Char :=
  ['/', '\\', '?', '%', '*', ':', '|', Char.ofNat 34, '<', '>', '.', ' ']

/-- `sanitize_filename` of the source: starting from the input, for each
invalid character in turn replace every occurrence of it by an underscore
(Rust's `String::replace(c, "_")`, a character-wise substitution since the
replacement is a single character). -/
def sanitize_filename (filename : String) : String :=
  ⟨invalid_chars.foldl
     (fun s c => s.map (fun x => if x = c then '_' else x)) filename.data⟩

/-- `create_frontmatter` of the source.  The current UTC timestamp
(`chrono::Utc::now().to_rfc3339()` in the source, an external clock) is passed
in as `now`. -/
def create_frontmatter (metadata : Metadata) (now : String) : String :=
  let fm := "---\n"
  let fm := match metadata.title with
    | some title => fm ++ "title: \"" ++ title ++ "\"\n"
    | none => fm
  let fm := match metadata.source_url with
    | some source_url => fm ++ "url: \"" ++ source_url ++ "\"\n"
    | none => fm
  let fm := fm ++ "scrapeDate: " ++ now ++ "\n"
  fm ++ "---\n\n"

/-- `create_domain_directory` of the source.  `parse` is the `url` crate's
parser (external); `mkdir` is the outcome of `fs::create_dir_all` (external
filesystem).  Returns the event trace and the result: the sanitised domain
directory name, or an error.  As in the source, a parsed URL without a domain
falls back to the directory name `unknown` (`domain().unwrap_or("unknown")`). -/
def create_domain_directory (parse : String → Option Url)
    (mkdir : String → Except String Unit) (url : String) :
    List Event × Except String String :=
  match parse url with
  | none => ([], Except.error "relative URL without a base")
  | some parsed_url =>
    let domain := parsed_url.domain.getD "unknown"
    let dir_name := sanitize_filename domain
    ([Event.mkdir dir_name],
     match mkdir dir_name with
     | Except.ok _ => Except.ok dir_name
     | Except.error e => Except.error e)

/-- The link-filtering pipeline inside `extract_doc_links`: keep the candidates
that parse and whose domain equals `base_domain` exactly, strip each survivor's
fragment, render back to a string, and collect into a `HashSet` (modelled as
`List.dedup`: same membership, no duplicates, arbitrary order). -/
def filter_doc_links (parse : String → Option Url) (base_domain : String)
    (links : List String) : List String :=
  (links.filterMap (fun link =>
    (parse link).bind (fun url =>
      if url.domain = some base_domain then
        some (Url.render { url with fragment := none })
      else none))).dedup

/-- `extract_doc_links` of the source: one extraction request for the `links`
format, then — on transport success — parse the start URL, require a domain,
and run the filtering pipeline over the response's `links` field
(`unwrap_or_default`: a missing field behaves as the empty list). -/
def extract_doc_links (parse : String → Option Url)
    (api : String → String → Except String ScrapeResponse)
    (start_url : String) : List Event × Except String (List String) :=
  ([Event.apiRequest start_url "links"],
   match api start_url "links" with
   | Except.error e => Except.error e
   | Except.ok scrape_response =>
     match parse start_url with
     | none => Except.error "Failed to parse start URL"
     | some base_url =>
       match base_url.domain with
       | none => Except.error "Invalid base domain"
       | some base_domain =>
         Except.ok (filter_doc_links parse base_domain
           (scrape_response.data.links.getD [])))

/-- `process_page` of the source: one extraction request for the `markdown`
format; filename from the title when the metadata has one, else the
`page_<sanitised url>` fallback; when a markdown body is present, write
frontmatter + body to `output_dir/filename` (a failed write is a page-scoped
error); when it is absent, log a diagnostic and succeed; finally surface any
engine warning as a diagnostic. -/
def process_page (api : String → String → Except String ScrapeResponse)
    (write : String → String → Except String Unit) (now : String)
    (url : String) (output_dir : String) : List Event × Except String Unit :=
  match api url "markdown" with
  | Except.error e => ([Event.apiRequest url "markdown"], Except.error e)
  | Except.ok scrape_response =>
    let filename := match scrape_response.data.metadata.title with
      | some title => sanitize_filename title ++ ".md"
      | none => "page_" ++ sanitize_filename url ++ ".md"
    let file_path := output_dir ++ "/" ++ filename
    let warn_events := match scrape_response.data.warning with
      | some warning => [Event.elog ("Warning for " ++ url ++ ": " ++ warning)]
      | none => []
    match scrape_response.data.markdown with
    | some markdown =>
      let content := create_frontmatter scrape_response.data.metadata now ++ markdown
      (match write file_path content with
       | Except.error e =>
         ([Event.apiRequest url "markdown", Event.fileWrite file_path],
          Except.error ("Failed to write file " ++ file_path ++ ": " ++ e))
       | Except.ok _ =>
         ([Event.apiRequest url "markdown", Event.fileWrite file_path,
           Event.log ("Saved: " ++ file_path)] ++ warn_events,
          Except.ok ()))
    | none =>
      ([Event.apiRequest url "markdown",
        Event.elog ("No markdown content received for " ++ url)] ++ warn_events,
       Except.ok ())

/-- The page-processing `for` loop of `scrape_documentation`: each link is
processed in turn; a per-page error is logged (`eprintln!`) and the loop
continues with the next link.  The loop itself produces no result, only
events. -/
def process_pages (api : String → String → Except String ScrapeResponse)
    (write : String → String → Except String Unit) (now : String)
    (output_dir : String) : List String → List Event
  | [] => []
  | url :: rest =>
    (process_page api write now url output_dir).1 ++
    (match (process_page api write now url output_dir).2 with
     | Except.error e => [Event.elog ("Error processing " ++ url ++ ": " ++ e)]
     | Except.ok _ => []) ++
    process_pages api write now output_dir rest

/-- `scrape_documentation` of the source: resolve the output directory (fatal
on failure), discover links (fatal on failure), then process every link with
per-page error isolation and return overall success. -/
def scrape_documentation (parse : String → Option Url)
    (mkdir : String → Except String Unit)
    (api : String → String → Except String ScrapeResponse)
    (write : String → String → Except String Unit)
    (now : String) (start_url : String) : List Event × Except String Unit :=
  match (create_domain_directory parse mkdir start_url).2 with
  | Except.error e =>
    ((create_domain_directory parse mkdir start_url).1,
     Except.error ("Failed to create output directory: " ++ e))
  | Except.ok output_dir =>
    match (extract_doc_links parse api start_url).2 with
    | Except.error e =>
      ((create_domain_directory parse mkdir start_url).1 ++
         [Event.log ("Saving files to: " ++ output_dir)] ++
         (extract_doc_links parse api start_url).1,
       Except.error e)
    | Except.ok doc_urls =>
      ((create_domain_directory parse mkdir start_url).1 ++
         [Event.log ("Saving files to: " ++ output_dir)] ++
         (extract_doc_links parse api start_url).1 ++
         [Event.log ("Found " ++ toString doc_urls.length ++ " documentation pages")] ++
         process_pages api write now output_dir doc_urls,
       Except.ok ())

/-! ### Concrete oracles, used to exercise the theorems on the spec's
end-to-end scenario (start URL `https://docs.example.com`). -/

/-- The link list of the spec's end-to-end scenario. -/
def demo_links : List String :=
  ["https://docs.example.com/a", "https://docs.example.com/a#section",
   "https://docs.example.com/b", "https://other.com/c"]

/-- A concrete instance of the external URL parser, defined on the URLs of the
end-to-end scenario plus an IP-address URL (which parses but has no domain). -/
def demo_parse : String → Option Url := fun s =>
  if s = "https://docs.example.com" then
    some ⟨"https", some "docs.example.com", "", none⟩
  else if s = "https://docs.example.com/a" then
    some ⟨"https", some "docs.example.com", "/a", none⟩
  else if s = "https://docs.example.com/a#section" then
    some ⟨"https", some "docs.example.com", "/a", some "section"⟩
  else if s = "https://docs.example.com/b" then
    some ⟨"https", some "docs.example.com", "/b", none⟩
  else if s = "https://other.com/c" then
    some ⟨"https", some "other.com", "/c", none⟩
  else if s = "https://127.0.0.1/" then
    some ⟨"https", none, "/", none⟩
  else none

/-- Metadata with every field absent. -/
def empty_metadata : Metadata := ⟨none, none, none, none, none, none⟩

/-- A response carrying the demo link list and nothing else. -/
def links_response : ScrapeResponse :=
  { success := true,
    data := { markdown := none, html := none, raw_html := none, screenshot := none,
              links := some demo_links, metadata := empty_metadata, warning := none } }

/-- A response whose `links` field is absent. -/
def no_links_response : ScrapeResponse :=
  { success := true,
    data := { markdown := none, html := none, raw_html := none, screenshot := none,
              links := none, metadata := empty_metadata, warning := none } }

/-- A response with a markdown body whose metadata carries an empty title. -/
def empty_title_response : ScrapeResponse :=
  { success := true,
    data := { markdown := some "body", html := none, raw_html := none, screenshot := none,
              links := none,
              metadata := { title := some "", description := none, language := none,
                            source_url := none, status_code := none, error := none },
              warning := none } }

/-- A filesystem oracle on which directory creation always succeeds. -/
def mkdir_ok : String → Except String Unit := fun _ => Except.ok ()

/-- A filesystem oracle on which every file write succeeds. -/
def write_ok : String → String → Except String Unit := fun _ _ => Except.ok ()

/-- A transport oracle that answers every request with the demo link list. -/
def api_always : String → String → Except String ScrapeResponse :=
  fun _ _ => Except.ok links_response

/-- A transport oracle that answers `links` requests with the demo link list and
fails every `markdown` request. -/
def api_links_only : String → String → Except String ScrapeResponse :=
  fun _ format => if format = "links" then Except.ok links_response
                  else Except.error "transport error"

/-- A transport oracle that answers with a response having no `links` field. -/
def api_no_links : String → String → Except String ScrapeResponse :=
  fun _ _ => Except.ok no_links_response

/-- A transport oracle that answers with the empty-title markdown response. -/
def api_empty_title : String → String → Except String ScrapeResponse :=
  fun _ _ => Except.ok empty_title_response

/-! ### Helper lemmas -/

/-- Folding character-by-character replacement over a list of target characters
is the single pass that replaces every character belonging to the list. -/
lemma foldl_replace (cs : List Char) (l : List Char) :
    cs.foldl (fun s c => s.map (fun x => if x = c then '_' else x)) l =
      l.map (fun x => if x ∈ cs then '_' else x) := by
  induction cs generalizing l with
  | nil => simp
  | cons c cs ih =>
    rw [List.foldl_cons, ih, List.map_map]
    refine congrArg (fun f => List.map f l) (funext fun x => ?_)
    by_cases hx : x = c
    · subst hx
      simp [Function.comp]
    · simp [Function.comp, hx, List.mem_cons]

/-- `sanitize_filename` as a single character map. -/
lemma sanitize_filename_eq_map (s : String) :
    sanitize_filename s =
      ⟨s.data.map (fun c => if c ∈ invalid_chars then '_' else c)⟩ :=
  congrArg String.mk (foldl_replace invalid_chars s.data)

/-- The frontmatter block, written as the concatenation of its delimiters and
(possibly omitted) lines. -/
lemma create_frontmatter_eq (metadata : Metadata) (now : String) :
    create_frontmatter metadata now =
      "---\n" ++
      (match metadata.title with
       | some title => "title: \"" ++ title ++ "\"\n"
       | none => "") ++
      (match metadata.source_url with
       | some source_url => "url: \"" ++ source_url ++ "\"\n"
       | none => "") ++
      ("scrapeDate: " ++ now ++ "\n") ++ "---\n\n" := by
  unfold create_frontmatter
  rcases metadata.title with _ | t <;> rcases metadata.source_url with _ | u <;>
    · apply String.ext
      simp [String.data_append]

/-! ### Claim theorems -/

/-- C7: the Filename Sanitizer is total and replaces every occurrence of each
disallowed character by a single underscore, preserving all other characters;
consequently its result contains no disallowed character. -/
theorem sanitize_filename_replaces_all_invalid (s : String) :
    sanitize_filename s =
      ⟨s.data.map (fun c => if c ∈ invalid_chars then '_' else c)⟩ ∧
    ∀ c, c ∈ (sanitize_filename s).data → c ∉ invalid_chars := by
  refine ⟨sanitize_filename_eq_map s, fun c hc => ?_⟩
  rw [sanitize_filename_eq_map s] at hc
  rcases List.mem_map.mp hc with ⟨a, _, ha⟩
  by_cases hm : a ∈ invalid_chars
  · rw [if_pos hm] at ha
    rw [← ha]
    decide
  · rw [if_neg hm] at ha
    rw [← ha]
    exact hm

/-- C7 witness: the theorem evaluated at a concrete string. -/
theorem sanitize_filename_replaces_all_invalid_witness :
    sanitize_filename "hello/world.txt" =
      ⟨("hello/world.txt" : String).data.map
        (fun c => if c ∈ invalid_chars then '_' else c)⟩ ∧
    sanitize_filename "hello/world.txt" = "hello_world_txt" :=
  ⟨(sanitize_filename_replaces_all_invalid "hello/world.txt").1, by decide⟩

/-- C8: the Filename Sanitizer is idempotent. -/
theorem sanitize_filename_idempotent (s : String) :
    sanitize_filename (sanitize_filename s) = sanitize_filename s := by
  rw [sanitize_filename_eq_map s, sanitize_filename_eq_map, List.map_map]
  refine congrArg String.mk (congrArg (fun f => List.map f s.data)
    (funext fun x => ?_))
  simp only [Function.comp_apply]
  by_cases hx : x ∈ invalid_chars
  · rw [if_pos hx, if_neg (by decide : ('_' : Char) ∉ invalid_chars)]
  · rw [if_neg hx, if_neg hx]

/-- C6: the frontmatter block is delimited by three-dash lines and contains, in
order, a quoted title line (omitted when the metadata has no title), a quoted
url line (omitted when the metadata has no source URL), and an always-present
scrapeDate line carrying the timestamp taken at write time. -/
theorem create_frontmatter_shape (metadata : Metadata) (now : String) :
    create_frontmatter metadata now =
      "---\n" ++
      (match metadata.title with
       | some title => "title: \"" ++ title ++ "\"\n"
       | none => "") ++
      (match metadata.source_url with
       | some source_url => "url: \"" ++ source_url ++ "\"\n"
       | none => "") ++
      ("scrapeDate: " ++ now ++ "\n") ++ "---\n\n" :=
  create_frontmatter_eq metadata now

/-- C10: frontmatter values are interpolated verbatim, with no escaping — even
when the title or source URL contains a double quote or a newline, the emitted
line carries it raw between the surrounding quotes. -/
theorem create_frontmatter_no_escaping (title source_url now : String)
    (_h : Char.ofNat 34 ∈ title.data ∨ '\n' ∈ title.data ∨
          Char.ofNat 34 ∈ source_url.data ∨ '\n' ∈ source_url.data) :
    create_frontmatter ⟨some title, none, none, some source_url, none, none⟩ now =
      "---\ntitle: \"" ++ title ++ "\"\nurl: \"" ++ source_url ++
        "\"\nscrapeDate: " ++ now ++ "\n---\n\n" := by
  apply String.ext
  simp [create_frontmatter, String.data_append]

/-- C10 witness: a title containing a raw double quote is emitted verbatim. -/
theorem create_frontmatter_no_escaping_witness :
    (Char.ofNat 34 ∈ ("a\"b" : String).data ∨ '\n' ∈ ("a\"b" : String).data ∨
     Char.ofNat 34 ∈ ("https://e.com" : String).data ∨
     '\n' ∈ ("https://e.com" : String).data) ∧
    create_frontmatter ⟨some "a\"b", none, none, some "https://e.com", none, none⟩ "T" =
      "---\ntitle: \"" ++ "a\"b" ++ "\"\nurl: \"" ++ "https://e.com" ++
        "\"\nscrapeDate: " ++ "T" ++ "\n---\n\n" :=
  ⟨Or.inl (by decide),
   create_frontmatter_no_escaping "a\"b" "https://e.com" "T" (Or.inl (by decide))⟩

/-- Membership in the link-filtering pipeline's result: exactly the rendered
fragment-stripped forms of the candidates that parse and lie on the base
domain. -/
lemma mem_filter_doc_links (parse : String → Option Url) (base_domain : String)
    (links : List String) (s : String) :
    s ∈ filter_doc_links parse base_domain links ↔
      ∃ link, link ∈ links ∧ ∃ u, parse link = some u ∧
        u.domain = some base_domain ∧
        s = Url.render { u with fragment := none } := by
  unfold filter_doc_links
  rw [List.mem_dedup, List.mem_filterMap]
  constructor
  · rintro ⟨a, ha, hfa⟩
    rcases Option.bind_eq_some.mp hfa with ⟨u, hu, hif⟩
    by_cases hd : u.domain = some base_domain
    · rw [if_pos hd] at hif
      exact ⟨a, ha, u, hu, hd, (Option.some.inj hif).symm⟩
    · rw [if_neg hd] at hif
      cases hif
  · rintro ⟨link, hl, u, hu, hd, rfl⟩
    exact ⟨link, hl, Option.bind_eq_some.mpr ⟨u, hu, by rw [if_pos hd]⟩⟩

/-- C2: when the link request succeeds and the start URL has a determinable
domain, Link Discovery succeeds; its result has no duplicate strings, and a
string belongs to it exactly when it is the fragment-stripped form of some
candidate that parses and whose domain equals the start URL's domain —
candidates that fail to parse or are cross-domain are dropped, not errors. -/
theorem extract_doc_links_filters_and_dedups
    (parse : String → Option Url)
    (api : String → String → Except String ScrapeResponse)
    (start_url : String) (resp : ScrapeResponse) (ls : List String)
    (base_url : Url) (base_domain : String)
    (hapi : api start_url "links" = Except.ok resp)
    (hl : resp.data.links = some ls)
    (hp : parse start_url = some base_url)
    (hd : base_url.domain = some base_domain) :
    (extract_doc_links parse api start_url).2 =
      Except.ok (filter_doc_links parse base_domain ls) ∧
    (filter_doc_links parse base_domain ls).Nodup ∧
    ∀ s, s ∈ filter_doc_links parse base_domain ls ↔
      ∃ link, link ∈ ls ∧ ∃ u, parse link = some u ∧
        u.domain = some base_domain ∧
        s = Url.render { u with fragment := none } := by
  refine ⟨?_, List.nodup_dedup _, fun s => mem_filter_doc_links parse base_domain ls s⟩
  unfold extract_doc_links
  simp only [hapi, hp, hd, hl, Option.getD_some]

/-- C2 witness: the end-to-end scenario — same-domain candidates kept once
each, the fragment duplicate merged, the cross-domain candidate dropped. -/
theorem extract_doc_links_filters_and_dedups_witness :
    ((extract_doc_links demo_parse api_links_only "https://docs.example.com").2 =
      Except.ok (filter_doc_links demo_parse "docs.example.com" demo_links) ∧
     (filter_doc_links demo_parse "docs.example.com" demo_links).Nodup ∧
     ∀ s, s ∈ filter_doc_links demo_parse "docs.example.com" demo_links ↔
       ∃ link, link ∈ demo_links ∧ ∃ u, demo_parse link = some u ∧
         u.domain = some "docs.example.com" ∧
         s = Url.render { u with fragment := none }) ∧
    filter_doc_links demo_parse "docs.example.com" demo_links =
      ["https://docs.example.com/a", "https://docs.example.com/b"] :=
  ⟨extract_doc_links_filters_and_dedups demo_parse api_links_only
      "https://docs.example.com" links_response demo_links
      ⟨"https", some "docs.example.com", "", none⟩ "docs.example.com"
      rfl rfl rfl rfl,
   by decide⟩

/-- C9: when the link request succeeds but the response has no `links` field
at all, Link Discovery succeeds with the empty list — the absent field is an
empty link list, not an error. -/
theorem extract_doc_links_missing_links_field
    (parse : String → Option Url)
    (api : String → String → Except String ScrapeResponse)
    (start_url : String) (resp : ScrapeResponse)
    (base_url : Url) (base_domain : String)
    (hapi : api start_url "links" = Except.ok resp)
    (hl : resp.data.links = none)
    (hp : parse start_url = some base_url)
    (hd : base_url.domain = some base_domain) :
    (extract_doc_links parse api start_url).2 = Except.ok [] := by
  unfold extract_doc_links
  simp only [hapi, hp, hd, hl, Option.getD_none]
  simp [filter_doc_links]

/-- C9 witness: the theorem evaluated on a concrete response with an absent
`links` field. -/
theorem extract_doc_links_missing_links_field_witness :
    (extract_doc_links demo_parse api_no_links "https://docs.example.com").2 =
      Except.ok [] :=
  extract_doc_links_missing_links_field demo_parse api_no_links
    "https://docs.example.com" no_links_response
    ⟨"https", some "docs.example.com", "", none⟩ "docs.example.com"
    rfl rfl rfl rfl

/-- C3 counterexample: the claim keys the fallback on a non-empty title, but
the source keys it on the title's presence.  For a response whose metadata
carries the empty title (not a non-empty title, so the claim demands the
`page_<sanitized url>.md` fallback), the page is written to `.md` — the
sanitized empty title plus suffix — and not to the fallback name. -/
theorem process_page_empty_title_counterexample :
    Event.fileWrite "out/.md" ∈
      (process_page api_empty_title write_ok "T" "https://docs.example.com/a" "out").1 ∧
    Event.fileWrite ("out/page_" ++
        sanitize_filename "https://docs.example.com/a" ++ ".md") ∉
      (process_page api_empty_title write_ok "T" "https://docs.example.com/a" "out").1 := by
  constructor
  · decide
  · decide

/-- C3 (as amended): the output filename is chosen by the presence of the
title field — `sanitize(title) + ".md"` whenever metadata carries a title
(even an empty one), and `"page_" + sanitize(url) + ".md"` only when the title
field is absent; a fallback chain, never an error. -/
theorem process_page_filename_choice
    (api : String → String → Except String ScrapeResponse)
    (write : String → String → Except String Unit)
    (now url output_dir : String) (resp : ScrapeResponse) (md : String)
    (hapi : api url "markdown" = Except.ok resp)
    (hmd : resp.data.markdown = some md)
    (hw : ∀ p c, write p c = Except.ok ()) :
    (process_page api write now url output_dir).2 = Except.ok () ∧
    Event.fileWrite (output_dir ++ "/" ++
      (match resp.data.metadata.title with
       | some title => sanitize_filename title ++ ".md"
       | none => "page_" ++ sanitize_filename url ++ ".md")) ∈
      (process_page api write now url output_dir).1 := by
  unfold process_page
  simp only [hapi, hmd, hw]
  rcases resp.data.warning with _ | w <;> simp

/-- C3 witness: a response whose metadata carries the (empty) title is written
under the sanitized-title name. -/
theorem process_page_filename_choice_witness :
    ((process_page api_empty_title write_ok "T" "https://docs.example.com/a" "out").2 =
      Except.ok () ∧
     Event.fileWrite ("out" ++ "/" ++
       (match empty_title_response.data.metadata.title with
        | some title => sanitize_filename title ++ ".md"
        | none => "page_" ++ sanitize_filename "https://docs.example.com/a" ++ ".md")) ∈
      (process_page api_empty_title write_ok "T" "https://docs.example.com/a" "out").1) :=
  process_page_filename_choice api_empty_title write_ok "T"
    "https://docs.example.com/a" "out" empty_title_response "body"
    rfl rfl (fun _ _ => rfl)

/-- C4: a response with no markdown body writes no file, emits a diagnostic
naming the page, and still succeeds, so the orchestrator records no error for
this page. -/
theorem process_page_missing_markdown
    (api : String → String → Except String ScrapeResponse)
    (write : String → String → Except String Unit)
    (now url output_dir : String) (resp : ScrapeResponse)
    (hapi : api url "markdown" = Except.ok resp)
    (hmd : resp.data.markdown = none) :
    (process_page api write now url output_dir).2 = Except.ok () ∧
    Event.elog ("No markdown content received for " ++ url) ∈
      (process_page api write now url output_dir).1 ∧
    ∀ p, Event.fileWrite p ∉ (process_page api write now url output_dir).1 := by
  unfold process_page
  simp only [hapi, hmd]
  rcases resp.data.warning with _ | w <;> simp

/-- C4 witness: the theorem evaluated on a concrete markdown-less response. -/
theorem process_page_missing_markdown_witness :
    (process_page api_always write_ok "T" "https://docs.example.com/a" "out").2 =
      Except.ok () ∧
    Event.elog ("No markdown content received for " ++ "https://docs.example.com/a") ∈
      (process_page api_always write_ok "T" "https://docs.example.com/a" "out").1 ∧
    ∀ p, Event.fileWrite p ∉
      (process_page api_always write_ok "T" "https://docs.example.com/a" "out").1 :=
  process_page_missing_markdown api_always write_ok "T"
    "https://docs.example.com/a" "out" links_response rfl rfl

/-- Every invocation of `process_page` issues its markdown extraction request,
whatever the outcome. -/
lemma process_page_requests
    (api : String → String → Except String ScrapeResponse)
    (write : String → String → Except String Unit)
    (now url output_dir : String) :
    Event.apiRequest url "markdown" ∈ (process_page api write now url output_dir).1 := by
  cases hA : api url "markdown" with
  | error e => simp [process_page, hA]
  | ok resp =>
    cases hM : resp.data.markdown with
    | none => simp [process_page, hA, hM]
    | some md =>
      simp only [process_page, hA, hM]
      split <;> simp

/-- Every link in the processing loop has its markdown request issued. -/
lemma process_pages_requests
    (api : String → String → Except String ScrapeResponse)
    (write : String → String → Except String Unit)
    (now output_dir : String) (urls : List String) (url : String)
    (h : url ∈ urls) :
    Event.apiRequest url "markdown" ∈ process_pages api write now output_dir urls := by
  induction urls with
  | nil => simp at h
  | cons hd tl ih =>
    rw [process_pages]
    rcases List.mem_cons.mp h with rfl | h2
    · exact List.mem_append_left _
        (List.mem_append_left _ (process_page_requests api write now url output_dir))
    · exact List.mem_append_right _ (ih h2)

/-- A link whose page processing fails has a diagnostic associating the link
with the error in the loop's trace. -/
lemma process_pages_logs
    (api : String → String → Except String ScrapeResponse)
    (write : String → String → Except String Unit)
    (now output_dir : String) (urls : List String) (url e : String)
    (h : url ∈ urls)
    (he : (process_page api write now url output_dir).2 = Except.error e) :
    Event.elog ("Error processing " ++ url ++ ": " ++ e) ∈
      process_pages api write now output_dir urls := by
  induction urls with
  | nil => simp at h
  | cons hd tl ih =>
    rw [process_pages]
    rcases List.mem_cons.mp h with rfl | h2
    · refine List.mem_append_left _ (List.mem_append_right _ ?_)
      rw [he]
      simp
    · exact List.mem_append_right _ (ih h2)

/-- Link Discovery always fails when the start URL parses but has no domain,
whatever the transport answers. -/
lemma extract_doc_links_no_domain
    (parse : String → Option Url)
    (api : String → String → Except String ScrapeResponse)
    (url : String) (u : Url)
    (hp : parse url = some u) (hd : u.domain = none) :
    ∃ e, (extract_doc_links parse api url).2 = Except.error e := by
  cases hA : api url "links" with
  | error e => exact ⟨e, by simp [extract_doc_links, hA]⟩
  | ok resp => exact ⟨"Invalid base domain", by simp [extract_doc_links, hA, hp, hd]⟩

/-- C1: whenever the run reaches the page-processing loop (directory resolved,
links discovered), it ends in overall success no matter how the individual
pages fare; every discovered link is attempted, and a page failure is logged
as a per-page diagnostic associating the link with the error. -/
theorem scrape_documentation_isolates_page_failures
    (parse : String → Option Url) (mkdir : String → Except String Unit)
    (api : String → String → Except String ScrapeResponse)
    (write : String → String → Except String Unit)
    (now start_url output_dir : String) (doc_urls : List String)
    (hdir : (create_domain_directory parse mkdir start_url).2 = Except.ok output_dir)
    (hlinks : (extract_doc_links parse api start_url).2 = Except.ok doc_urls) :
    (scrape_documentation parse mkdir api write now start_url).2 = Except.ok () ∧
    (∀ url, url ∈ doc_urls →
      Event.apiRequest url "markdown" ∈
        (scrape_documentation parse mkdir api write now start_url).1) ∧
    (∀ url, url ∈ doc_urls → ∀ e,
      (process_page api write now url output_dir).2 = Except.error e →
      Event.elog ("Error processing " ++ url ++ ": " ++ e) ∈
        (scrape_documentation parse mkdir api write now start_url).1) := by
  have hs : scrape_documentation parse mkdir api write now start_url =
      ((create_domain_directory parse mkdir start_url).1 ++
         [Event.log ("Saving files to: " ++ output_dir)] ++
         (extract_doc_links parse api start_url).1 ++
         [Event.log ("Found " ++ toString doc_urls.length ++ " documentation pages")] ++
         process_pages api write now output_dir doc_urls,
       Except.ok ()) := by
    unfold scrape_documentation
    rw [hdir, hlinks]
  refine ⟨by rw [hs], fun url hu => ?_, fun url hu e he => ?_⟩
  · rw [hs]
    exact List.mem_append_right _
      (process_pages_requests api write now output_dir doc_urls url hu)
  · rw [hs]
    exact List.mem_append_right _
      (process_pages_logs api write now output_dir doc_urls url e hu he)

/-- C1 witness: a run in which every markdown fetch fails on the transport
still reaches the loop and ends in overall success. -/
theorem scrape_documentation_isolates_page_failures_witness :
    (scrape_documentation demo_parse mkdir_ok api_links_only write_ok "T"
        "https://docs.example.com").2 = Except.ok () ∧
    (∀ url, url ∈ filter_doc_links demo_parse "docs.example.com" demo_links →
      Event.apiRequest url "markdown" ∈
        (scrape_documentation demo_parse mkdir_ok api_links_only write_ok "T"
          "https://docs.example.com").1) ∧
    (∀ url, url ∈ filter_doc_links demo_parse "docs.example.com" demo_links → ∀ e,
      (process_page api_links_only write_ok "T" url "docs_example_com").2 =
        Except.error e →
      Event.elog ("Error processing " ++ url ++ ": " ++ e) ∈
        (scrape_documentation demo_parse mkdir_ok api_links_only write_ok "T"
          "https://docs.example.com").1) :=
  scrape_documentation_isolates_page_failures demo_parse mkdir_ok api_links_only
    write_ok "T" "https://docs.example.com" "docs_example_com"
    (filter_doc_links demo_parse "docs.example.com" demo_links)
    rfl rfl

/-- C5 counterexample: `https://127.0.0.1/` is a well-formed URL without a
domain.  The run does fail — but only during link discovery, after the link
extraction request (network activity) has been issued, contradicting the claim
that the run fails before any network activity occurs. -/
theorem crawl_target_no_domain_counterexample :
    (scrape_documentation demo_parse mkdir_ok api_always write_ok "T"
        "https://127.0.0.1/").2 = Except.error "Invalid base domain" ∧
    Event.apiRequest "https://127.0.0.1/" "links" ∈
      (scrape_documentation demo_parse mkdir_ok api_always write_ok "T"
        "https://127.0.0.1/").1 := by
  constructor
  · rfl
  · decide

/-- C5 (as amended): a malformed CrawlTarget fails the run before any
activity at all; a well-formed CrawlTarget with no domain component still
fails the run, but only during link discovery — directory resolution falls
back to the name `unknown`, and when directory creation succeeds the link
extraction request is issued before the failure. -/
theorem crawl_target_validation
    (parse : String → Option Url) (mkdir : String → Except String Unit)
    (api : String → String → Except String ScrapeResponse)
    (write : String → String → Except String Unit)
    (now url : String) :
    (parse url = none →
      (scrape_documentation parse mkdir api write now url).1 = [] ∧
      ∃ e, (scrape_documentation parse mkdir api write now url).2 = Except.error e) ∧
    (∀ u, parse url = some u → u.domain = none →
      (∃ e, (scrape_documentation parse mkdir api write now url).2 = Except.error e) ∧
      (mkdir (sanitize_filename "unknown") = Except.ok () →
        Event.apiRequest url "links" ∈
          (scrape_documentation parse mkdir api write now url).1)) := by
  constructor
  · intro hp
    have hcd : create_domain_directory parse mkdir url =
        ([], Except.error "relative URL without a base") := by
      unfold create_domain_directory
      rw [hp]
    unfold scrape_documentation
    rw [hcd]
    exact ⟨rfl, "Failed to create output directory: " ++ "relative URL without a base", rfl⟩
  · intro u hp hd
    cases hm : mkdir (sanitize_filename "unknown") with
    | error e =>
      have hcd : (create_domain_directory parse mkdir url).2 = Except.error e := by
        unfold create_domain_directory
        simp only [hp, hd, Option.getD_none, hm]
      have hs : (scrape_documentation parse mkdir api write now url).2 =
          Except.error ("Failed to create output directory: " ++ e) := by
        unfold scrape_documentation
        rw [hcd]
      refine ⟨⟨_, hs⟩, fun hok => ?_⟩
      exact Except.noConfusion hok
    | ok v =>
      have hcd : (create_domain_directory parse mkdir url).2 =
          Except.ok (sanitize_filename "unknown") := by
        unfold create_domain_directory
        simp only [hp, hd, Option.getD_none, hm]
      rcases extract_doc_links_no_domain parse api url u hp hd with ⟨e, he⟩
      have hs : scrape_documentation parse mkdir api write now url =
          ((create_domain_directory parse mkdir url).1 ++
             [Event.log ("Saving files to: " ++ sanitize_filename "unknown")] ++
             (extract_doc_links parse api url).1,
           Except.error e) := by
        unfold scrape_documentation
        rw [hcd, he]
      refine ⟨⟨e, by rw [hs]⟩, fun _ => ?_⟩
      rw [hs]
      exact List.mem_append_right _ (by simp [extract_doc_links])

/-- C5 witness: the amended theorem evaluated at the IP-address target. -/
theorem crawl_target_validation_witness :
    (∃ e, (scrape_documentation demo_parse mkdir_ok api_always write_ok "T"
        "https://127.0.0.1/").2 = Except.error e) ∧
    Event.apiRequest "https://127.0.0.1/" "links" ∈
      (scrape_documentation demo_parse mkdir_ok api_always write_ok "T"
        "https://127.0.0.1/").1 := by
  have h := (crawl_target_validation demo_parse mkdir_ok api_always write_ok "T"
      "https://127.0.0.1/").2 ⟨"https", none, "/", none⟩ (by decide) rfl
  exact ⟨h.1, h.2 rfl⟩
